import Mathlib

/-!
A shallow embedding of `src/vs/platform/sharedProcess/electron-browser/sharedProcessWorkerService.ts`
(classes `SharedProcessWorkerService` and `SharedProcessWebWorker`).

The TypeScript code is single-threaded and cooperatively scheduled: every `async`
function runs synchronously up to its first `await`, and each `await` suspends the
function, registering its continuation on the awaited promise.  Reactions of a
promise run as microtasks in subscription order (FIFO).  We embed this directly:

* the mutable fields of the two classes (`workers`, `processes`, the per-worker
  nonce table `mapMessageNonceToMessageResolve`, the readiness promise) become
  fields of an explicit `ServiceState`;
* each code segment between two suspension points becomes one Lean function on
  `ServiceState`;
* each suspended continuation becomes a constructor of an inductive `Task`, and
  the JavaScript microtask queue becomes a FIFO `List Task` inside the state;
* observable actions (posting a message into the web worker, closing a port,
  triggering a cancellation source, relaying the window port, logging) are
  recorded in an append-only event trace.

JavaScript `Map` objects are embedded as association lists with `aset` / `aerase`
/ `alookup` (keys are unique; iteration order is never observed by the code).
-/

namespace SharedProcessWorker

/-- Association-list lookup (JavaScript `Map.get`). -/
def alookup {α β : Type} [DecidableEq α] : List (α × β) → α → Option β
  | [], _ => none
  | (k, v) :: l, k' => if k' = k then some v else alookup l k'

/-- Association-list deletion (JavaScript `Map.delete`). -/
def aerase {α β : Type} [DecidableEq α] : List (α × β) → α → List (α × β)
  | [], _ => []
  | (k, v) :: l, k' => if k' = k then aerase l k' else (k, v) :: aerase l k'

/-- Association-list update (JavaScript `Map.set`). -/
def aset {α β : Type} [DecidableEq α] (l : List (α × β)) (k : α) (v : β) : List (α × β) :=
  (k, v) :: aerase l k

/-- `ISharedProcessWorkerConfiguration`: describes a requested process.
`moduleId` and `typ` embed `configuration.process.moduleId` and
`configuration.process.type`; `windowId` embeds `configuration.reply.windowId`. -/
structure WorkerConfiguration where
  moduleId : String
  typ : String
  windowId : Nat
deriving DecidableEq

/-- Modelled from the spec: the identity hashing collaborator (`hash` is imported
from `vs/platform/sharedProcess/common/sharedProcessWorkerService`, which is not
under `src/`).  The spec requires only a pure function on configurations such
that structurally equal configurations hash equal, which any Lean function
satisfies. -/
def hash (c : WorkerConfiguration) : Nat :=
  c.moduleId.toList.foldl (fun a ch => a * 257 + ch.toNat + 1)
    (c.typ.toList.foldl (fun a ch => a * 257 + ch.toNat + 1) (c.windowId + 1))

/-- The `id` field of `ISharedProcessToWorkerMessage` (`SharedProcessWorkerMessages`). -/
inductive ToWorkerMessageId where
  | workerSpawn
  | workerTerminate
deriving DecidableEq

/-- `ISharedProcessToWorkerMessage` as posted into the web worker by `send`
(after the nonce has been attached). -/
structure ToWorkerMessage where
  id : ToWorkerMessageId
  configuration : WorkerConfiguration
  environment : Option String
  nonce : String
deriving DecidableEq

/-- The `id` field of `IWorkerToSharedProcessMessage`. `unknown` stands for any
id not matched by the `switch` in `doInit`. -/
inductive FromWorkerMessageId where
  | workerReady
  | workerAck
  | workerTrace
  | workerInfo
  | workerWarn
  | workerError
  | unknown
deriving DecidableEq

/-- `IWorkerToSharedProcessMessage` as received by the `onmessage` handler.
`nonce = none` embeds an `undefined` nonce field. -/
structure FromWorkerMessage where
  id : FromWorkerMessageId
  message : Option String
  nonce : Option String
deriving DecidableEq

/-- Modelled from the spec: the cancellation primitive (`CancellationToken` /
`CancellationTokenSource` come from `vs/base/common/cancellation`, not under
`src/`).  A token is either `CancellationToken.None` (never cancelled) or the
token of the cancellation source owned by a process handle; the source's
cancelled flag lives in the handle record. -/
inductive CancellationTokenRef where
  | none
  | source (handle : Nat)
deriving DecidableEq

/-- Log severities of `ILogService` calls made by the code. -/
inductive LogSeverity where
  | trace
  | info
  | warn
  | error
deriving DecidableEq

/-- Observable actions, recorded in an append-only trace. -/
inductive Event where
  /-- a call into the logging collaborator. -/
  | log (sev : LogSeverity) (text : String)
  /-- `new Worker(...)` inside `doInit`: the execution unit is created. -/
  | workerCreated (w : Nat) (typ : String)
  /-- the first `worker.postMessage` in `doInit` (the bootstrap module id). -/
  | transmitBootstrap (w : Nat)
  /-- `worker.postMessage(workerMessage)` inside `send`: a spawn or terminate
  message is transmitted to the execution unit, optionally transferring a port. -/
  | transmit (w : Nat) (m : ToWorkerMessage) (port : Option Nat)
  /-- `cts.dispose(true)` in the dispose closure: the cancellation source fires. -/
  | ctsCancel (handle : Nat)
  /-- `MessagePort.close()`. -/
  | portClose (port : Nat)
  /-- `ipcRenderer.postMessage('vscode:relaySharedProcessWorkerMessageChannel', ...)`:
  the window port is handed to the relay collaborator. -/
  | relay (cfg : WorkerConfiguration) (windowPort : Nat)
deriving DecidableEq

/-- The completion target of a `send` promise: what resumes when the promise
resolves.  The spawn `send` is awaited by `createWorker` (resuming after line
`await worker.spawn(...)`); the terminate `send` made by the dispose closure is
not awaited by anyone. -/
inductive AckCont where
  | terminateDone
  | cwAfterSpawn (handle : Nat) (cfg : WorkerConfiguration) (windowPort : Nat)
deriving DecidableEq

/-- Suspended continuations: one constructor per `await` in the source.
`sendCont` is the rest of `send` after `await this.workerReady`; `initCont` is
the rest of `init` after `await this.workerReady` (it resolves the promise
stored in the `workers` map); `cwAfterWorker` is the rest of `createWorker`
after `await this.getOrCreateWebWorker(...)`; `ackCont` runs when a `send`
promise resolves. -/
inductive Task where
  | sendCont (w : Nat) (msgId : ToWorkerMessageId) (cfg : WorkerConfiguration)
      (environment : Option String) (token : CancellationTokenRef)
      (port : Option Nat) (k : AckCont)
  | initCont (w : Nat)
  | cwAfterWorker (handle : Nat) (cfg : WorkerConfiguration) (w : Nat)
  | ackCont (k : AckCont)
deriving DecidableEq

/-- The state captured by one `createWorker` invocation's dispose closure: the
cancellation source `cts` and the mutable locals `worker`, `windowPort`,
`workerPort` (all `undefined`, i.e. `none`, until assigned).  `disposed` records
that the `toDisposable` wrapper (from `vs/base/common/lifecycle`, not under
`src/`) runs its function at most once. -/
structure ProcessHandle where
  configuration : WorkerConfiguration
  ctsCancelled : Bool
  disposed : Bool
  worker : Option Nat
  windowPort : Option Nat
  workerPort : Option Nat
deriving DecidableEq

/-- One `SharedProcessWebWorker` instance.  `ready` is the resolution state of
the `workerReady` promise and `readyWaiters` its subscribed reactions in
subscription order; `initDone` / `initWaiters` play the same role for the
promise returned by `init()` (the value stored in the `workers` map);
`pending` is `mapMessageNonceToMessageResolve`. -/
structure WebWorker where
  typ : String
  ready : Bool
  readyWaiters : List Task
  initDone : Bool
  initWaiters : List Task
  pending : List (String × AckCont)
deriving DecidableEq

/-- The whole mutable state: the two service maps, the handle and worker stores,
fresh-name counters, the microtask queue and the event trace. -/
structure ServiceState where
  /-- `SharedProcessWorkerService.workers`: process module id to (promise of) worker. -/
  workers : List (String × Nat)
  /-- `SharedProcessWorkerService.processes`: configuration hash to handle. -/
  processes : List (Nat × Nat)
  handles : List (Nat × ProcessHandle)
  webWorkers : List (Nat × WebWorker)
  nextHandle : Nat
  nextWorker : Nat
  nextNonce : Nat
  nextPort : Nat
  queue : List Task
  events : List Event
deriving DecidableEq

def emptyState : ServiceState :=
  { workers := [], processes := [], handles := [], webWorkers := [],
    nextHandle := 0, nextWorker := 0, nextNonce := 0, nextPort := 0,
    queue := [], events := [] }

/-- Modelled from the spec: `generateUuid` (from `vs/base/common/uuid`, not
under `src/`) returns a fresh, globally unique correlation id; we draw it from
the `nextNonce` counter. -/
def nonceOf (n : Nat) : String := "uuid-" ++ toString n

def emit (st : ServiceState) (e : Event) : ServiceState :=
  { st with events := st.events ++ [e] }

def enqueue (st : ServiceState) (t : Task) : ServiceState :=
  { st with queue := st.queue ++ [t] }

def setHandle (st : ServiceState) (h : Nat) (ph : ProcessHandle) : ServiceState :=
  { st with handles := aset st.handles h ph }

def setWebWorker (st : ServiceState) (w : Nat) (ww : WebWorker) : ServiceState :=
  { st with webWorkers := aset st.webWorkers w ww }

/-- `token.isCancellationRequested`: `CancellationToken.None` is never
cancelled; a source token reads its handle's cancelled flag. -/
def isCancellationRequested (st : ServiceState) (t : CancellationTokenRef) : Bool :=
  match t with
  | .none => false
  | .source h =>
    match alookup st.handles h with
    | some ph => ph.ctsCancelled
    | none => false

/-- The synchronous prefix of `SharedProcessWebWorker.send` (line 205): calling
`send` immediately evaluates `await this.workerReady`, which subscribes the rest
of `send` to the readiness promise — as an immediate microtask if the promise is
already resolved, else as a reaction run at resolution time. -/
def sendStart (st : ServiceState) (w : Nat) (msgId : ToWorkerMessageId)
    (cfg : WorkerConfiguration) (env : Option String) (token : CancellationTokenRef)
    (port : Option Nat) (k : AckCont) : ServiceState :=
  let t := Task.sendCont w msgId cfg env token port k
  match alookup st.webWorkers w with
  | none => st
  | some ww =>
    if ww.ready then enqueue st t
    else setWebWorker st w { ww with readyWaiters := ww.readyWaiters ++ [t] }

/-- The rest of `send` after `await this.workerReady` (lines 208-226): check the
token — if already cancelled, return (which resolves the `send` promise, so its
awaiter is scheduled) without transmitting and without recording a pending
entry; otherwise draw a nonce, record the resolver under it, and post the
message (with the nonce attached) into the worker. -/
def runSendCont (st : ServiceState) (w : Nat) (msgId : ToWorkerMessageId)
    (cfg : WorkerConfiguration) (env : Option String) (token : CancellationTokenRef)
    (port : Option Nat) (k : AckCont) : ServiceState :=
  if isCancellationRequested st token then
    enqueue st (Task.ackCont k)
  else
    match alookup st.webWorkers w with
    | none => st
    | some ww =>
      let nonce := nonceOf st.nextNonce
      let st1 := setWebWorker { st with nextNonce := st.nextNonce + 1 } w
        { ww with pending := aset ww.pending nonce k }
      emit st1 (.transmit w { id := msgId, configuration := cfg, environment := env, nonce := nonce } port)

/-- Modelled from the spec: the bootstrap path in the spawn message environment
is derived by the external `FileAccess` collaborator (not under `src/`). -/
def bootstrapPath : String := "bootstrap-fork"

/-- `SharedProcessWebWorker.spawn` (line 229): a `send` of a `WorkerSpawn`
message carrying the configuration and environment, transferring the port. -/
def spawn (st : ServiceState) (w : Nat) (cfg : WorkerConfiguration) (port : Nat)
    (token : CancellationTokenRef) (k : AckCont) : ServiceState :=
  sendStart st w .workerSpawn cfg (some bootstrapPath) token (some port) k

/-- `SharedProcessWebWorker.terminate` (line 241): a `send` of a
`WorkerTerminate` message carrying the configuration, no port. -/
def terminate (st : ServiceState) (w : Nat) (cfg : WorkerConfiguration)
    (token : CancellationTokenRef) (k : AckCont) : ServiceState :=
  sendStart st w .workerTerminate cfg none token none k

/-- The dispose closure registered by `createWorker` (lines 42-56): trigger the
cancellation source (`cts.dispose(true)`), ask the worker — if the `worker`
local has been assigned — to terminate the process with `CancellationToken.None`
so that the message is delivered, close both ports if assigned, and remove the
`processes` entry for the configuration hash. -/
def disposeHandle (st : ServiceState) (h : Nat) : ServiceState :=
  match alookup st.handles h with
  | none => st
  | some ph =>
    if ph.disposed then st
    else
      let st1 := setHandle st h { ph with disposed := true, ctsCancelled := true }
      let st2 := emit st1 (.ctsCancel h)
      let st3 :=
        match ph.worker with
        | none => st2
        | some w => terminate st2 w ph.configuration .none .terminateDone
      let st4 :=
        match ph.windowPort with
        | none => st3
        | some p => emit st3 (.portClose p)
      let st5 :=
        match ph.workerPort with
        | none => st4
        | some p => emit st4 (.portClose p)
      { st5 with processes := aerase st5.processes (hash ph.configuration) }

/-- `SharedProcessWorkerService.disposeWorker` (lines 107-114): look up the
handle by configuration hash; if present, log and dispose it; otherwise do
nothing.  The function body contains no `await`, so it runs synchronously. -/
def disposeWorker (st : ServiceState) (cfg : WorkerConfiguration) : ServiceState :=
  match alookup st.processes (hash cfg) with
  | none => st
  | some h =>
    let st1 := emit st (.log .trace "SharedProcess: disposeWorker")
    disposeHandle st1 h

/-- `SharedProcessWorkerService.getOrCreateWebWorker` (lines 86-105): one web
worker per process module id.  On a miss, `new SharedProcessWebWorker` runs
`doInit` in its field sequence (creating the execution unit, registering the
message handler and posting the bootstrap module), `init()` is invoked (whose
`await this.workerReady` makes it the first subscriber of the readiness
promise), and the resulting promise is stored in the `workers` map before it
resolves. -/
def getOrCreateWebWorker (st : ServiceState) (cfg : WorkerConfiguration) :
    Nat × ServiceState :=
  match alookup st.workers cfg.moduleId with
  | some w => (w, st)
  | none =>
    let st1 := emit st (.log .trace "SharedProcess: creating new web worker")
    let w := st1.nextWorker
    let st2 := { st1 with nextWorker := w + 1 }
    let st3 := setWebWorker st2 w
      { typ := cfg.typ, ready := false, readyWaiters := [Task.initCont w],
        initDone := false, initWaiters := [], pending := [] }
    let st4 := emit st3 (.workerCreated w cfg.typ)
    let st5 := emit st4 (.transmitBootstrap w)
    (w, { st5 with workers := aset st5.workers cfg.moduleId w })

/-- `await webWorkerPromise` in `createWorker`: subscribe `t` to the promise
returned by `init()` — immediately scheduled if already resolved. -/
def awaitInitDone (st : ServiceState) (w : Nat) (t : Task) : ServiceState :=
  match alookup st.webWorkers w with
  | none => st
  | some ww =>
    if ww.initDone then enqueue st t
    else setWebWorker st w { ww with initWaiters := ww.initWaiters ++ [t] }

/-- The synchronous prefix of `SharedProcessWorkerService.createWorker`
(lines 27-59): log, synchronously run `disposeWorker` for the configuration,
create a fresh cancellation source and register the new process handle under
the configuration hash, resolve or create the shared web worker, and subscribe
the rest of `createWorker` to its `init()` promise.  Everything here happens
before the first suspension point of `createWorker`. -/
def createWorkerStart (st : ServiceState) (cfg : WorkerConfiguration) : ServiceState :=
  let st1 := emit st (.log .trace "SharedProcess: createWorker")
  let st2 := disposeWorker st1 cfg
  let h := st2.nextHandle
  let st3 := { st2 with nextHandle := h + 1 }
  let st4 := setHandle st3 h
    { configuration := cfg, ctsCancelled := false, disposed := false,
      worker := none, windowPort := none, workerPort := none }
  let st5 := { st4 with processes := aset st4.processes (hash cfg) h }
  let gw := getOrCreateWebWorker st5 cfg
  awaitInitDone gw.2 gw.1 (Task.cwAfterWorker h cfg gw.1)

/-- The rest of `init()` after `await this.workerReady`: resolve the promise
stored in the `workers` map, scheduling its subscribed reactions in order. -/
def runInitCont (st : ServiceState) (w : Nat) : ServiceState :=
  match alookup st.webWorkers w with
  | none => st
  | some ww =>
    let st1 := setWebWorker st w { ww with initDone := true, initWaiters := [] }
    { st1 with queue := st1.queue ++ ww.initWaiters }

/-- The rest of `createWorker` after `worker = await this.getOrCreateWebWorker`
(lines 59-73): assign the `worker` local (shared with the dispose closure),
return early if the token is already cancelled, otherwise create the
`MessageChannel` (assigning both port locals) and call `spawn` with the worker
port and the source's token, subscribing the post-spawn rest of `createWorker`
to the `send` promise. -/
def runCwAfterWorker (st : ServiceState) (h : Nat) (cfg : WorkerConfiguration)
    (w : Nat) : ServiceState :=
  let st1 :=
    match alookup st.handles h with
    | none => st
    | some ph => setHandle st h { ph with worker := some w }
  if isCancellationRequested st1 (.source h) then st1
  else
    let p1 := st1.nextPort
    let p2 := st1.nextPort + 1
    let st2 := { st1 with nextPort := st1.nextPort + 2 }
    let st3 :=
      match alookup st2.handles h with
      | none => st2
      | some ph => setHandle st2 h { ph with windowPort := some p1, workerPort := some p2 }
    spawn st3 w cfg p2 (.source h) (.cwAfterSpawn h cfg p1)

/-- Resolution of a `send` promise.  For the spawn `send` this is the rest of
`createWorker` after `await worker.spawn(...)` (lines 75-83): return early if
the token is cancelled, otherwise log and relay the window port.  The terminate
`send` has no awaiter. -/
def runAckCont (st : ServiceState) (k : AckCont) : ServiceState :=
  match k with
  | .terminateDone => st
  | .cwAfterSpawn h cfg windowPort =>
    if isCancellationRequested st (.source h) then st
    else
      let st1 := emit st (.log .trace "SharedProcess: createWorker sending message port back to window")
      emit st1 (.relay cfg windowPort)

/-- The `onmessage` handler registered in `doInit` (lines 150-197), dispatching
on the message id. -/
def handleWorkerMessage (st : ServiceState) (w : Nat) (m : FromWorkerMessage) :
    ServiceState :=
  match alookup st.webWorkers w with
  | none => st
  | some ww =>
    match m.id with
    | .workerReady =>
      if ww.ready then st
      else
        let st1 := setWebWorker st w { ww with ready := true, readyWaiters := [] }
        { st1 with queue := st1.queue ++ ww.readyWaiters }
    | .workerAck =>
      match m.nonce with
      | none => st
      | some n =>
        if n = "" then st
        else
          match alookup ww.pending n with
          | none => st
          | some k =>
            let st1 := setWebWorker st w { ww with pending := aerase ww.pending n }
            enqueue st1 (Task.ackCont k)
    | .workerTrace => emit st (.log .trace (m.message.getD ""))
    | .workerInfo =>
      match m.message with
      | none => st
      | some s => if s = "" then st else emit st (.log .info s)
    | .workerWarn => emit st (.log .warn (m.message.getD ""))
    | .workerError => emit st (.log .error (m.message.getD ""))
    | .unknown => emit st (.log .warn "SharedProcess: unexpected worker message")

/-- Run one suspended continuation. -/
def runTask (st : ServiceState) : Task → ServiceState
  | .sendCont w msgId cfg env token port k => runSendCont st w msgId cfg env token port k
  | .initCont w => runInitCont st w
  | .cwAfterWorker h cfg w => runCwAfterWorker st h cfg w
  | .ackCont k => runAckCont st k

/-- Drain the microtask queue FIFO, up to `fuel` steps. -/
def drain : Nat → ServiceState → ServiceState
  | 0, st => st
  | fuel + 1, st =>
    match st.queue with
    | [] => st
    | t :: ts => drain fuel (runTask { st with queue := ts } t)

/-- The external stimuli: service API calls and inbound worker messages
(each is one macrotask). -/
inductive ExternalAction where
  | callCreateWorker (cfg : WorkerConfiguration)
  | callDisposeWorker (cfg : WorkerConfiguration)
  | fromWorker (w : Nat) (m : FromWorkerMessage)

def runAction (st : ServiceState) : ExternalAction → ServiceState
  | .callCreateWorker cfg => createWorkerStart st cfg
  | .callDisposeWorker cfg => disposeWorker st cfg
  | .fromWorker w m => handleWorkerMessage st w m

/-- Run a sequence of macrotasks, draining all microtasks after each. -/
def runScript : List ExternalAction → ServiceState → ServiceState
  | [], st => st
  | a :: as, st => runScript as (drain 32 (runAction st a))

/-- A sample configuration used by concrete executions. -/
def cfgA : WorkerConfiguration := { moduleId := "m1", typ := "t1", windowId := 1 }

/-- The `WorkerReady` message from the execution unit. -/
def readyMsg : FromWorkerMessage := { id := .workerReady, message := none, nonce := none }

/-- A `WorkerAck` message from the execution unit carrying nonce `n`. -/
def ackMsg (n : String) : FromWorkerMessage :=
  { id := .workerAck, message := none, nonce := some n }

/-- True on events that transmit a terminate message into a worker. -/
def isTerminateTransmit : Event → Bool
  | .transmit _ m _ =>
    match m.id with
    | .workerTerminate => true
    | _ => false
  | _ => false

/-- True on events that transmit a spawn message into a worker. -/
def isSpawnTransmit : Event → Bool
  | .transmit _ m _ =>
    match m.id with
    | .workerSpawn => true
    | _ => false
  | _ => false

/-- True on events that transmit a spawn or terminate message into a worker. -/
def isControlTransmit (e : Event) : Bool := isTerminateTransmit e || isSpawnTransmit e

/-- True on the events recording that a cancellation source fired. -/
def isCtsCancel : Event → Bool
  | .ctsCancel _ => true
  | _ => false

/-- Two back-to-back `createWorker` calls for the same configuration (the second
issued while the first's worker acquisition is still pending), after which the
worker reports ready and the microtask queue is drained. -/
def backToBack : ServiceState :=
  runScript [.callCreateWorker cfgA, .callCreateWorker cfgA, .fromWorker 0 readyMsg]
    emptyState

/-- `createWorker` immediately followed by `disposeWorker` (before the worker
reports ready), after which the worker reports ready and the queue is drained. -/
def disposeBeforeReady : ServiceState :=
  runScript [.callCreateWorker cfgA, .callDisposeWorker cfgA, .fromWorker 0 readyMsg]
    emptyState

/-- The state after one `createWorker` call (worker still pending). -/
def afterOneCreate : ServiceState := runScript [.callCreateWorker cfgA] emptyState

/-- The state after a completed `createWorker`: the worker reported ready and the
spawn message was acknowledged. -/
def afterFirstComplete : ServiceState :=
  runScript [.callCreateWorker cfgA, .fromWorker 0 readyMsg, .fromWorker 0 (ackMsg (nonceOf 0))]
    emptyState

/-- The live process handle inside `afterFirstComplete`. -/
def phLive : ProcessHandle :=
  { configuration := cfgA, ctsCancelled := false, disposed := false,
    worker := some 0, windowPort := some 0, workerPort := some 1 }

/-- The web worker record inside `afterFirstComplete`. -/
def wwReady : WebWorker :=
  { typ := "t1", ready := true, readyWaiters := [], initDone := true,
    initWaiters := [], pending := [] }

/-- A handle whose cancellation source has fired. -/
def phCancelled : ProcessHandle :=
  { configuration := cfgA, ctsCancelled := true, disposed := true,
    worker := some 0, windowPort := none, workerPort := none }

/-- A state holding only a cancelled handle. -/
def cancelledState : ServiceState := { emptyState with handles := [(0, phCancelled)] }

/-- A web worker with one pending (unacknowledged) entry. -/
def wwPending : WebWorker :=
  { typ := "t1", ready := true, readyWaiters := [], initDone := true,
    initWaiters := [], pending := [(nonceOf 0, AckCont.cwAfterSpawn 0 cfgA 0)] }

/-- A state holding only a worker with one pending entry. -/
def pendingState : ServiceState := { emptyState with webWorkers := [(0, wwPending)] }

/- ------------------------------------------------------------------ -/
/- Association-list lemmas.                                           -/
/- ------------------------------------------------------------------ -/

theorem alookup_aerase {α β : Type} [DecidableEq α] (l : List (α × β)) (k k' : α) :
    alookup (aerase l k) k' = if k' = k then none else alookup l k' := by
  induction l with
  | nil => simp [aerase, alookup]
  | cons p l ih =>
    obtain ⟨a, b⟩ := p
    by_cases hka : k = a
    · subst hka
      rw [show aerase ((k, b) :: l) k = aerase l k by simp [aerase], ih]
      by_cases hk : k' = k
      · simp [hk]
      · simp [alookup, hk]
    · rw [show aerase ((a, b) :: l) k = (a, b) :: aerase l k by simp [aerase, hka]]
      by_cases hk : k' = a
      · subst hk
        have hkk : k' ≠ k := fun h => hka h.symm
        simp [alookup, hkk]
      · simp [alookup, hk, ih]

theorem alookup_aset {α β : Type} [DecidableEq α] (l : List (α × β)) (k k' : α) (v : β) :
    alookup (aset l k v) k' = if k' = k then some v else alookup l k' := by
  by_cases hk : k' = k <;> simp [aset, alookup, hk, alookup_aerase]

theorem alookup_aset_self {α β : Type} [DecidableEq α] (l : List (α × β)) (k : α) (v : β) :
    alookup (aset l k v) k = some v := by
  simp [alookup_aset]

theorem alookup_aset_ne {α β : Type} [DecidableEq α] (l : List (α × β)) (k k' : α) (v : β)
    (h : k' ≠ k) : alookup (aset l k v) k' = alookup l k' := by
  simp [alookup_aset, h]

/- ------------------------------------------------------------------ -/
/- Frame lemmas: which state components each operation leaves alone.  -/
/- ------------------------------------------------------------------ -/

theorem sendStart_workers (st : ServiceState) (w : Nat) (msgId : ToWorkerMessageId)
    (cfg : WorkerConfiguration) (env : Option String) (token : CancellationTokenRef)
    (port : Option Nat) (k : AckCont) :
    (sendStart st w msgId cfg env token port k).workers = st.workers := by
  unfold sendStart
  cases h : alookup st.webWorkers w with
  | none => rfl
  | some ww => by_cases hr : ww.ready <;> simp [hr, enqueue, setWebWorker]

theorem sendStart_processes (st : ServiceState) (w : Nat) (msgId : ToWorkerMessageId)
    (cfg : WorkerConfiguration) (env : Option String) (token : CancellationTokenRef)
    (port : Option Nat) (k : AckCont) :
    (sendStart st w msgId cfg env token port k).processes = st.processes := by
  unfold sendStart
  cases h : alookup st.webWorkers w with
  | none => rfl
  | some ww => by_cases hr : ww.ready <;> simp [hr, enqueue, setWebWorker]

theorem sendStart_handles (st : ServiceState) (w : Nat) (msgId : ToWorkerMessageId)
    (cfg : WorkerConfiguration) (env : Option String) (token : CancellationTokenRef)
    (port : Option Nat) (k : AckCont) :
    (sendStart st w msgId cfg env token port k).handles = st.handles := by
  unfold sendStart
  cases h : alookup st.webWorkers w with
  | none => rfl
  | some ww => by_cases hr : ww.ready <;> simp [hr, enqueue, setWebWorker]

theorem sendStart_events (st : ServiceState) (w : Nat) (msgId : ToWorkerMessageId)
    (cfg : WorkerConfiguration) (env : Option String) (token : CancellationTokenRef)
    (port : Option Nat) (k : AckCont) :
    (sendStart st w msgId cfg env token port k).events = st.events := by
  unfold sendStart
  cases h : alookup st.webWorkers w with
  | none => rfl
  | some ww => by_cases hr : ww.ready <;> simp [hr, enqueue, setWebWorker]

theorem sendStart_nextHandle (st : ServiceState) (w : Nat) (msgId : ToWorkerMessageId)
    (cfg : WorkerConfiguration) (env : Option String) (token : CancellationTokenRef)
    (port : Option Nat) (k : AckCont) :
    (sendStart st w msgId cfg env token port k).nextHandle = st.nextHandle := by
  unfold sendStart
  cases h : alookup st.webWorkers w with
  | none => rfl
  | some ww => by_cases hr : ww.ready <;> simp [hr, enqueue, setWebWorker]

theorem sendStart_webWorkers_isSome (st : ServiceState) (w : Nat)
    (msgId : ToWorkerMessageId) (cfg : WorkerConfiguration) (env : Option String)
    (token : CancellationTokenRef) (port : Option Nat) (k : AckCont) (w' : Nat) :
    (alookup (sendStart st w msgId cfg env token port k).webWorkers w').isSome
      = (alookup st.webWorkers w').isSome := by
  unfold sendStart
  cases h : alookup st.webWorkers w with
  | none => rfl
  | some ww =>
    by_cases hr : ww.ready
    · simp [hr, enqueue]
    · by_cases hww : w' = w
      · subst hww
        simp [hr, setWebWorker, alookup_aset_self, h]
      · simp [hr, setWebWorker, alookup_aset_ne _ _ _ _ hww]

theorem getOrCreateWebWorker_processes (st : ServiceState) (cfg : WorkerConfiguration) :
    (getOrCreateWebWorker st cfg).2.processes = st.processes := by
  unfold getOrCreateWebWorker
  cases h : alookup st.workers cfg.moduleId <;> simp [emit, setWebWorker]

theorem getOrCreateWebWorker_handles (st : ServiceState) (cfg : WorkerConfiguration) :
    (getOrCreateWebWorker st cfg).2.handles = st.handles := by
  unfold getOrCreateWebWorker
  cases h : alookup st.workers cfg.moduleId <;> simp [emit, setWebWorker]

theorem getOrCreateWebWorker_nextHandle (st : ServiceState) (cfg : WorkerConfiguration) :
    (getOrCreateWebWorker st cfg).2.nextHandle = st.nextHandle := by
  unfold getOrCreateWebWorker
  cases h : alookup st.workers cfg.moduleId <;> simp [emit, setWebWorker]

theorem getOrCreateWebWorker_queue (st : ServiceState) (cfg : WorkerConfiguration) :
    (getOrCreateWebWorker st cfg).2.queue = st.queue := by
  unfold getOrCreateWebWorker
  cases h : alookup st.workers cfg.moduleId <;> simp [emit, setWebWorker]

theorem awaitInitDone_processes (st : ServiceState) (w : Nat) (t : Task) :
    (awaitInitDone st w t).processes = st.processes := by
  unfold awaitInitDone
  cases h : alookup st.webWorkers w with
  | none => simp
  | some ww => by_cases hr : ww.initDone <;> simp [hr, enqueue, setWebWorker]

theorem awaitInitDone_handles (st : ServiceState) (w : Nat) (t : Task) :
    (awaitInitDone st w t).handles = st.handles := by
  unfold awaitInitDone
  cases h : alookup st.webWorkers w with
  | none => simp
  | some ww => by_cases hr : ww.initDone <;> simp [hr, enqueue, setWebWorker]

theorem awaitInitDone_nextHandle (st : ServiceState) (w : Nat) (t : Task) :
    (awaitInitDone st w t).nextHandle = st.nextHandle := by
  unfold awaitInitDone
  cases h : alookup st.webWorkers w with
  | none => simp
  | some ww => by_cases hr : ww.initDone <;> simp [hr, enqueue, setWebWorker]

theorem disposeHandle_workers (st : ServiceState) (h : Nat) :
    (disposeHandle st h).workers = st.workers := by
  unfold disposeHandle
  cases hph : alookup st.handles h with
  | none => rfl
  | some ph =>
    obtain ⟨c0, cc, dd, wo, wp, kp⟩ := ph
    cases dd with
    | true => simp
    | false =>
      cases wo <;> cases wp <;> cases kp <;>
        simp [terminate, sendStart_workers, emit, setHandle]

theorem disposeHandle_nextHandle (st : ServiceState) (h : Nat) :
    (disposeHandle st h).nextHandle = st.nextHandle := by
  unfold disposeHandle
  cases hph : alookup st.handles h with
  | none => rfl
  | some ph =>
    obtain ⟨c0, cc, dd, wo, wp, kp⟩ := ph
    cases dd with
    | true => simp
    | false =>
      cases wo <;> cases wp <;> cases kp <;>
        simp [terminate, sendStart_nextHandle, emit, setHandle]

theorem disposeHandle_webWorkers_isSome (st : ServiceState) (h : Nat) (w' : Nat) :
    (alookup (disposeHandle st h).webWorkers w').isSome
      = (alookup st.webWorkers w').isSome := by
  unfold disposeHandle
  cases hph : alookup st.handles h with
  | none => rfl
  | some ph =>
    obtain ⟨c0, cc, dd, wo, wp, kp⟩ := ph
    cases dd with
    | true => simp
    | false =>
      cases wo <;> cases wp <;> cases kp <;>
        simp [terminate, sendStart_webWorkers_isSome, emit, setHandle]

theorem disposeWorker_workers (st : ServiceState) (cfg : WorkerConfiguration) :
    (disposeWorker st cfg).workers = st.workers := by
  unfold disposeWorker
  cases hp : alookup st.processes (hash cfg) with
  | none => rfl
  | some h => simp [disposeHandle_workers, emit]

theorem disposeWorker_nextHandle (st : ServiceState) (cfg : WorkerConfiguration) :
    (disposeWorker st cfg).nextHandle = st.nextHandle := by
  unfold disposeWorker
  cases hp : alookup st.processes (hash cfg) with
  | none => rfl
  | some h => simp [disposeHandle_nextHandle, emit]

theorem disposeWorker_webWorkers_isSome (st : ServiceState) (cfg : WorkerConfiguration)
    (w' : Nat) :
    (alookup (disposeWorker st cfg).webWorkers w').isSome
      = (alookup st.webWorkers w').isSome := by
  unfold disposeWorker
  cases hp : alookup st.processes (hash cfg) with
  | none => rfl
  | some h => simp [disposeHandle_webWorkers_isSome, emit]

theorem disposeHandle_cancels (st : ServiceState) (h : Nat) (ph : ProcessHandle)
    (hph : alookup st.handles h = some ph) (hnd : ph.disposed = false) :
    alookup (disposeHandle st h).handles h
      = some { ph with disposed := true, ctsCancelled := true } := by
  obtain ⟨c0, cc, dd, wo, wp, kp⟩ := ph
  simp only at hnd
  subst hnd
  unfold disposeHandle
  rw [hph]
  cases wo <;> cases wp <;> cases kp <;>
    simp [terminate, sendStart_handles, emit, setHandle, alookup_aset_self]

theorem disposeWorker_cancels (st : ServiceState) (cfg : WorkerConfiguration)
    (h : Nat) (ph : ProcessHandle)
    (hproc : alookup st.processes (hash cfg) = some h)
    (hph : alookup st.handles h = some ph) (hnd : ph.disposed = false) :
    isCancellationRequested (disposeWorker st cfg)
      (CancellationTokenRef.source h) = true := by
  unfold disposeWorker
  rw [hproc]
  have hph1 : alookup (emit st (Event.log LogSeverity.trace
      "SharedProcess: disposeWorker")).handles h = some ph := hph
  simp [isCancellationRequested, disposeHandle_cancels _ h ph hph1 hnd]

/- ------------------------------------------------------------------ -/
/- Claim theorems.                                                    -/
/- ------------------------------------------------------------------ -/

/-- C1: at most one web worker per unit-type key.  In any state, after a
`getOrCreateWebWorker` call the worker future it returned is stored under the
configuration's module id; a second call for the same module id returns that
same future and leaves the state entirely unchanged (no second worker is
created); and whenever the map already holds a future for the key — in
particular while that future is still pending — a call returns it without any
state change. -/
theorem getOrCreateWebWorker_single_flight (st : ServiceState)
    (cfg cfg2 : WorkerConfiguration) (hmod : cfg2.moduleId = cfg.moduleId) :
    alookup (getOrCreateWebWorker st cfg).2.workers cfg.moduleId
      = some (getOrCreateWebWorker st cfg).1
    ∧ getOrCreateWebWorker (getOrCreateWebWorker st cfg).2 cfg2
      = ((getOrCreateWebWorker st cfg).1, (getOrCreateWebWorker st cfg).2)
    ∧ (∀ w, alookup st.workers cfg.moduleId = some w
        → getOrCreateWebWorker st cfg = (w, st)) := by
  cases h : alookup st.workers cfg.moduleId with
  | some w =>
    refine ⟨?_, ?_, ?_⟩
    · simp [getOrCreateWebWorker, h]
    · simp [getOrCreateWebWorker, h, hmod]
    · intro w2 hw2
      injection hw2 with hww2
      subst hww2
      simp [getOrCreateWebWorker, h]
  | none =>
    refine ⟨?_, ?_, ?_⟩
    · simp [getOrCreateWebWorker, h, emit, setWebWorker, alookup_aset_self]
    · simp [getOrCreateWebWorker, h, hmod, emit, setWebWorker, alookup_aset_self]
    · intro w2 hw2
      simp at hw2

/-- C1 witness: in the state reached by one `createWorker` call the worker
future for module id `m1` is stored (and still pending), and the theorem applies
to a further call. -/
theorem getOrCreateWebWorker_single_flight_witness :
    cfgA.moduleId = cfgA.moduleId
    ∧ (alookup (getOrCreateWebWorker afterOneCreate cfgA).2.workers cfgA.moduleId
        = some (getOrCreateWebWorker afterOneCreate cfgA).1
      ∧ getOrCreateWebWorker (getOrCreateWebWorker afterOneCreate cfgA).2 cfgA
        = ((getOrCreateWebWorker afterOneCreate cfgA).1,
           (getOrCreateWebWorker afterOneCreate cfgA).2)
      ∧ (∀ w, alookup afterOneCreate.workers cfgA.moduleId = some w
          → getOrCreateWebWorker afterOneCreate cfgA = (w, afterOneCreate))) :=
  ⟨rfl, getOrCreateWebWorker_single_flight afterOneCreate cfgA cfgA rfl⟩

/-- C2 counterexample: two back-to-back `createWorker` calls for the same
configuration, the second issued while the first's worker acquisition is still
pending.  The first handle's cancellation source fires and the second process's
spawn message is transmitted, but no terminate message is ever transmitted (the
queue drains empty) — so the claimed ordering "terminate transmitted before the
second spawn" fails: there is no terminate transmission at all. -/
theorem second_create_no_terminate_counterexample :
    backToBack.events.any isCtsCancel = true
    ∧ backToBack.events.any isSpawnTransmit = true
    ∧ backToBack.events.any isTerminateTransmit = false
    ∧ backToBack.queue = [] := by decide

set_option maxHeartbeats 1000000 in
/-- C2 amended: calling `createWorker` again for a configuration with the same
identity hash, from any quiescent state in which the previous handle's `worker`
local has been assigned and the worker is ready (in particular after the first
call completed): the previous handle is disposed and the new one registered
(at most one handle per hash), and draining the scheduler transmits exactly the
first process's terminate message followed by the second process's spawn
message — terminate strictly before spawn. -/
theorem terminate_before_second_spawn (st : ServiceState)
    (cfg : WorkerConfiguration) (h0 w : Nat) (ph : ProcessHandle) (ww : WebWorker)
    (hq : st.queue = [])
    (hproc : alookup st.processes (hash cfg) = some h0)
    (hph : alookup st.handles h0 = some ph)
    (hnd : ph.disposed = false)
    (hw : ph.worker = some w)
    (hww : alookup st.webWorkers w = some ww)
    (hready : ww.ready = true)
    (hinit : ww.initDone = true)
    (hwk : alookup st.workers cfg.moduleId = some w)
    (hfresh : h0 ≠ st.nextHandle) :
    alookup (createWorkerStart st cfg).processes (hash cfg) = some st.nextHandle
    ∧ alookup (createWorkerStart st cfg).handles h0
        = some { ph with disposed := true, ctsCancelled := true }
    ∧ (drain 3 (createWorkerStart st cfg)).events.filter isControlTransmit
        = st.events.filter isControlTransmit
          ++ [Event.transmit w
                { id := .workerTerminate, configuration := ph.configuration,
                  environment := none, nonce := nonceOf st.nextNonce } none,
              Event.transmit w
                { id := .workerSpawn, configuration := cfg,
                  environment := some bootstrapPath,
                  nonce := nonceOf (st.nextNonce + 1) } (some (st.nextPort + 1))] := by
  obtain ⟨c0, cc, dd, wo, wp, kp⟩ := ph
  simp only at hnd hw
  subst hnd
  subst hw
  cases wp <;> cases kp <;>
    refine ⟨?_, ?_, ?_⟩ <;>
      simp [createWorkerStart, disposeWorker, disposeHandle, getOrCreateWebWorker,
        awaitInitDone, terminate, spawn, sendStart, runTask, runSendCont,
        runCwAfterWorker, runAckCont, drain, emit, setHandle, setWebWorker, enqueue,
        isCancellationRequested, alookup_aset, hq, hproc, hph, hww, hready, hinit,
        hwk, hfresh, isControlTransmit, isSpawnTransmit, isTerminateTransmit]

/-- C2 amended witness: after a completed first `createWorker`, a second call
for the same configuration transmits the terminate for the first process, then
the spawn for the second. -/
theorem terminate_before_second_spawn_witness :
    (afterFirstComplete.queue = []
      ∧ alookup afterFirstComplete.processes (hash cfgA) = some 0
      ∧ alookup afterFirstComplete.handles 0 = some phLive
      ∧ phLive.disposed = false
      ∧ phLive.worker = some 0
      ∧ alookup afterFirstComplete.webWorkers 0 = some wwReady
      ∧ wwReady.ready = true
      ∧ wwReady.initDone = true
      ∧ alookup afterFirstComplete.workers cfgA.moduleId = some 0
      ∧ 0 ≠ afterFirstComplete.nextHandle)
    ∧ (alookup (createWorkerStart afterFirstComplete cfgA).processes (hash cfgA)
        = some afterFirstComplete.nextHandle
      ∧ alookup (createWorkerStart afterFirstComplete cfgA).handles 0
          = some { phLive with disposed := true, ctsCancelled := true }
      ∧ (drain 3 (createWorkerStart afterFirstComplete cfgA)).events.filter
            isControlTransmit
          = afterFirstComplete.events.filter isControlTransmit
            ++ [Event.transmit 0
                  { id := .workerTerminate, configuration := phLive.configuration,
                    environment := none,
                    nonce := nonceOf afterFirstComplete.nextNonce } none,
                Event.transmit 0
                  { id := .workerSpawn, configuration := cfgA,
                    environment := some bootstrapPath,
                    nonce := nonceOf (afterFirstComplete.nextNonce + 1) }
                  (some (afterFirstComplete.nextPort + 1))]) :=
  ⟨⟨by decide, by decide, by decide, by decide, by decide, by decide, by decide,
    by decide, by decide, by decide⟩,
   terminate_before_second_spawn afterFirstComplete cfgA 0 0 phLive wwReady
     (by decide) (by decide) (by decide) (by decide) (by decide) (by decide)
     (by decide) (by decide) (by decide) (by decide)⟩

/-- C3: the synchronous prefix of `createWorker` (everything executed before its
first suspension point) registers a fresh, not-yet-cancelled process handle
under the configuration hash, so a `disposeWorker` for the same configuration
issued on any later state in which that registration is intact — in particular
immediately — finds the handle and triggers its cancellation source, which the
in-progress creation's continuations then observe. -/
theorem createWorker_registers_before_await (st : ServiceState)
    (cfg : WorkerConfiguration) :
    alookup (createWorkerStart st cfg).processes (hash cfg) = some st.nextHandle
    ∧ alookup (createWorkerStart st cfg).handles st.nextHandle
        = some { configuration := cfg, ctsCancelled := false, disposed := false,
                 worker := none, windowPort := none, workerPort := none }
    ∧ isCancellationRequested (disposeWorker (createWorkerStart st cfg) cfg)
        (CancellationTokenRef.source st.nextHandle) = true := by
  have h1 : alookup (createWorkerStart st cfg).processes (hash cfg)
      = some st.nextHandle := by
    simp [createWorkerStart, awaitInitDone_processes, getOrCreateWebWorker_processes,
      disposeWorker_nextHandle, emit, setHandle, alookup_aset_self]
  have h2 : alookup (createWorkerStart st cfg).handles st.nextHandle
      = some { configuration := cfg, ctsCancelled := false, disposed := false,
               worker := none, windowPort := none, workerPort := none } := by
    simp [createWorkerStart, awaitInitDone_handles, getOrCreateWebWorker_handles,
      disposeWorker_nextHandle, emit, setHandle, alookup_aset_self]
  exact ⟨h1, h2, disposeWorker_cancels _ cfg st.nextHandle _ h1 h2 rfl⟩

/-- C5: a `send` whose token is already cancelled at the pre-transmission check
returns (resolving its promise, so the awaiting continuation is scheduled)
without posting any message to the worker and without adding any entry to the
nonce-to-resolver table: the result is the input state with only the resolved
continuation enqueued, so the event trace (hence no transmission) and the
worker table (hence no pending entry) are unchanged. -/
theorem send_cancelled_is_silent (st : ServiceState) (w : Nat)
    (msgId : ToWorkerMessageId) (cfg : WorkerConfiguration) (env : Option String)
    (token : CancellationTokenRef) (port : Option Nat) (k : AckCont)
    (hc : isCancellationRequested st token = true) :
    runSendCont st w msgId cfg env token port k = enqueue st (Task.ackCont k)
    ∧ (runSendCont st w msgId cfg env token port k).events = st.events
    ∧ (runSendCont st w msgId cfg env token port k).webWorkers = st.webWorkers := by
  refine ⟨by simp [runSendCont, hc], ?_, ?_⟩ <;> simp [runSendCont, hc, enqueue]

/-- C5 witness: a concrete state whose handle 0 has a cancelled source; `send`
with that handle's token is silent. -/
theorem send_cancelled_is_silent_witness :
    isCancellationRequested cancelledState (CancellationTokenRef.source 0) = true
    ∧ (runSendCont cancelledState 0 .workerSpawn cfgA (some bootstrapPath)
          (CancellationTokenRef.source 0) (some 1)
          (AckCont.cwAfterSpawn 0 cfgA 0)
        = enqueue cancelledState (Task.ackCont (AckCont.cwAfterSpawn 0 cfgA 0))
      ∧ (runSendCont cancelledState 0 .workerSpawn cfgA (some bootstrapPath)
          (CancellationTokenRef.source 0) (some 1)
          (AckCont.cwAfterSpawn 0 cfgA 0)).events = cancelledState.events
      ∧ (runSendCont cancelledState 0 .workerSpawn cfgA (some bootstrapPath)
          (CancellationTokenRef.source 0) (some 1)
          (AckCont.cwAfterSpawn 0 cfgA 0)).webWorkers = cancelledState.webWorkers) :=
  ⟨by decide,
   send_cancelled_is_silent cancelledState 0 .workerSpawn cfgA (some bootstrapPath)
     (CancellationTokenRef.source 0) (some 1) (AckCont.cwAfterSpawn 0 cfgA 0) (by decide)⟩

/-- C6: handling an Ack whose (truthy) nonce matches a pending entry removes the
entry and schedules its resolver, each exactly once — replaying the same Ack on
the resulting state changes nothing, because the entry is gone; and an Ack whose
nonce matches no pending entry leaves the state untouched and raises no error. -/
theorem ack_resolves_exactly_once (st : ServiceState) (w : Nat) (ww : WebWorker)
    (n : String) (hww : alookup st.webWorkers w = some ww) (hn : n ≠ "") :
    (∀ k, alookup ww.pending n = some k →
      handleWorkerMessage st w (ackMsg n)
          = enqueue (setWebWorker st w { ww with pending := aerase ww.pending n })
              (Task.ackCont k)
        ∧ handleWorkerMessage
            (enqueue (setWebWorker st w { ww with pending := aerase ww.pending n })
              (Task.ackCont k)) w (ackMsg n)
          = enqueue (setWebWorker st w { ww with pending := aerase ww.pending n })
              (Task.ackCont k))
    ∧ (alookup ww.pending n = none → handleWorkerMessage st w (ackMsg n) = st) := by
  constructor
  · intro k hk
    constructor
    · simp [handleWorkerMessage, ackMsg, hww, hn, hk]
    · simp [handleWorkerMessage, ackMsg, enqueue, setWebWorker, alookup_aset_self,
        alookup_aerase, hn]
  · intro hk
    simp [handleWorkerMessage, ackMsg, hww, hn, hk]

/-- C6 witness: a concrete worker with one pending entry under nonce `uuid-0`;
the matching Ack resolves it exactly once and a duplicate is ignored. -/
theorem ack_resolves_exactly_once_witness :
    (alookup pendingState.webWorkers 0 = some wwPending ∧ nonceOf 0 ≠ "")
    ∧ ((∀ k, alookup wwPending.pending (nonceOf 0) = some k →
        handleWorkerMessage pendingState 0 (ackMsg (nonceOf 0))
            = enqueue (setWebWorker pendingState 0
                { wwPending with pending := aerase wwPending.pending (nonceOf 0) })
                (Task.ackCont k)
          ∧ handleWorkerMessage
              (enqueue (setWebWorker pendingState 0
                { wwPending with pending := aerase wwPending.pending (nonceOf 0) })
                (Task.ackCont k)) 0 (ackMsg (nonceOf 0))
            = enqueue (setWebWorker pendingState 0
                { wwPending with pending := aerase wwPending.pending (nonceOf 0) })
                (Task.ackCont k))
      ∧ (alookup wwPending.pending (nonceOf 0) = none →
          handleWorkerMessage pendingState 0 (ackMsg (nonceOf 0)) = pendingState)) :=
  ⟨⟨by decide, by decide⟩,
   ack_resolves_exactly_once pendingState 0 wwPending (nonceOf 0) (by decide) (by decide)⟩

/-- C7: the two cancellation checks in `createWorker`.  If the token is already
cancelled when the worker resolves, the continuation returns having only
assigned the `worker` local: no channel pair is created and the worker is not
contacted.  If the token is cancelled when the spawn acknowledgment arrives, the
continuation returns the state unchanged: the window endpoint is not relayed.
Both continuations return normally (the embedding is total; no error value
exists to surface). -/
theorem createWorker_cancelled_early_return (st : ServiceState) (h w p : Nat)
    (cfg : WorkerConfiguration) (ph : ProcessHandle)
    (hph : alookup st.handles h = some ph) (hc : ph.ctsCancelled = true) :
    runCwAfterWorker st h cfg w = setHandle st h { ph with worker := some w }
    ∧ runAckCont st (AckCont.cwAfterSpawn h cfg p) = st := by
  constructor
  · unfold runCwAfterWorker
    simp [hph, isCancellationRequested, setHandle, alookup_aset_self, hc]
  · unfold runAckCont
    simp [isCancellationRequested, hph, hc]

/-- C7 witness: in the concrete state whose handle 0 is cancelled, both
continuations return early. -/
theorem createWorker_cancelled_early_return_witness :
    (alookup cancelledState.handles 0 = some phCancelled
      ∧ phCancelled.ctsCancelled = true)
    ∧ (runCwAfterWorker cancelledState 0 cfgA 0
        = setHandle cancelledState 0 { phCancelled with worker := some 0 }
      ∧ runAckCont cancelledState (AckCont.cwAfterSpawn 0 cfgA 5) = cancelledState) :=
  ⟨⟨by decide, by decide⟩,
   createWorker_cancelled_early_return cancelledState 0 0 5 cfgA phCancelled
     (by decide) (by decide)⟩

/-- C4 counterexample: `disposeWorker` called right after `createWorker`, while
the worker acquisition is still pending.  The registered handle is disposed —
its cancellation source fires — yet no terminate message is ever transmitted,
not even after the worker reports ready and every continuation has run (the
queue is drained empty): the dispose closure's `worker?.terminate` guard saw the
still-unassigned `worker` local. -/
theorem dispose_without_terminate_counterexample :
    alookup afterOneCreate.processes (hash cfgA) = some 0
    ∧ disposeBeforeReady.events.any isCtsCancel = true
    ∧ disposeBeforeReady.events.any isTerminateTransmit = false
    ∧ disposeBeforeReady.queue = [] := by decide

/-- C4 amended: whenever a registered process handle whose `worker` local has
been assigned (and whose worker is ready) is disposed, the dispose closure's
terminate is issued with the never-cancelled token `CancellationToken.None`:
disposal schedules exactly the terminate send task, and running that task on any
state whatsoever — in particular one where the handle's own token has just been
cancelled — transmits the terminate message; the handle's cancellation cannot
suppress it.  (If the `worker` local is still unassigned at disposal, no
terminate is issued at all.) -/
theorem dispose_terminate_not_cancellable (st s : ServiceState) (h w : Nat)
    (ph : ProcessHandle) (ww ww2 : WebWorker)
    (hph : alookup st.handles h = some ph) (hnd : ph.disposed = false)
    (hw : ph.worker = some w)
    (hww : alookup st.webWorkers w = some ww) (hready : ww.ready = true)
    (hs : alookup s.webWorkers w = some ww2) :
    (disposeHandle st h).queue
      = st.queue ++ [Task.sendCont w .workerTerminate ph.configuration none
          CancellationTokenRef.none none AckCont.terminateDone]
    ∧ (runTask s (Task.sendCont w .workerTerminate ph.configuration none
          CancellationTokenRef.none none AckCont.terminateDone)).events
        = s.events ++ [Event.transmit w
            { id := .workerTerminate, configuration := ph.configuration,
              environment := none, nonce := nonceOf s.nextNonce } none] := by
  constructor
  · obtain ⟨c0, cc, dd, wo, wp, kp⟩ := ph
    simp only at hnd hw
    subst hnd
    subst hw
    unfold disposeHandle
    rw [hph]
    cases wp <;> cases kp <;>
      simp [terminate, sendStart, emit, setHandle, enqueue, hww, hready]
  · simp [runTask, runSendCont, isCancellationRequested, hs, emit, setWebWorker]

/-- C4 amended witness: disposing the live handle of a completed `createWorker`
schedules the terminate send, and running it (even on that same state, where the
source has just been cancelled by the closure) transmits the message. -/
theorem dispose_terminate_not_cancellable_witness :
    (alookup afterFirstComplete.handles 0 = some phLive
      ∧ phLive.disposed = false
      ∧ phLive.worker = some 0
      ∧ alookup afterFirstComplete.webWorkers 0 = some wwReady
      ∧ wwReady.ready = true)
    ∧ ((disposeHandle afterFirstComplete 0).queue
        = afterFirstComplete.queue ++ [Task.sendCont 0 .workerTerminate
            phLive.configuration none CancellationTokenRef.none none
            AckCont.terminateDone]
      ∧ (runTask afterFirstComplete (Task.sendCont 0 .workerTerminate
            phLive.configuration none CancellationTokenRef.none none
            AckCont.terminateDone)).events
          = afterFirstComplete.events ++ [Event.transmit 0
              { id := .workerTerminate, configuration := phLive.configuration,
                environment := none,
                nonce := nonceOf afterFirstComplete.nextNonce } none]) :=
  ⟨⟨by decide, by decide, by decide, by decide, by decide⟩,
   dispose_terminate_not_cancellable afterFirstComplete afterFirstComplete 0 0
     phLive wwReady wwReady (by decide) (by decide) (by decide) (by decide)
     (by decide) (by decide)⟩

/-- C8: `disposeWorker` for a configuration whose hash has no registered handle
returns the state unchanged: no exception, no terminate transmission, no port
closing, no log, and both registries untouched. -/
theorem disposeWorker_absent_noop (st : ServiceState) (cfg : WorkerConfiguration)
    (habs : alookup st.processes (hash cfg) = none) :
    disposeWorker st cfg = st := by
  simp [disposeWorker, habs]

/-- C8 witness: disposing in the empty state (nothing registered) is a no-op. -/
theorem disposeWorker_absent_noop_witness :
    alookup emptyState.processes (hash cfgA) = none
    ∧ disposeWorker emptyState cfgA = emptyState :=
  ⟨by decide, disposeWorker_absent_noop emptyState cfgA (by decide)⟩

/-- C9: disposing a process handle never removes or destroys the shared worker:
the dispose closure and `disposeWorker` leave the module-id-to-worker map
unchanged, and the dispose closure preserves the existence of every web worker
entry (it only touches the cancellation flag, the terminate send, the ports and
the `processes` entry). -/
theorem dispose_preserves_workers (st : ServiceState) (h : Nat)
    (cfg : WorkerConfiguration) :
    (disposeHandle st h).workers = st.workers
    ∧ (disposeWorker st cfg).workers = st.workers
    ∧ ∀ w, (alookup (disposeHandle st h).webWorkers w).isSome
        = (alookup st.webWorkers w).isSome :=
  ⟨disposeHandle_workers st h, disposeWorker_workers st cfg,
   fun w => disposeHandle_webWorkers_isSome st h w⟩

/-- C10: an inbound Ack whose nonce is absent (`undefined`) or the empty string
has no effect at all — the state, including the pending table, is returned
unchanged, no resolver is completed and nothing is logged — whatever the pending
table holds. -/
theorem ack_falsy_nonce_noop (st : ServiceState) (w : Nat) (msg : Option String) :
    handleWorkerMessage st w { id := .workerAck, message := msg, nonce := none } = st
    ∧ handleWorkerMessage st w { id := .workerAck, message := msg, nonce := some "" } = st := by
  constructor <;>
    · unfold handleWorkerMessage
      cases h : alookup st.webWorkers w <;> simp

end SharedProcessWorker
